import Mathlib

/-!
Verification of the rond authorization proxy core against its specification.

The development shallowly embeds the policy-enforcement pipeline: the JSON
values exchanged with the policy engine, the policy-input builder, the
resource-permissions materialization, the response transport, the error
response helpers and the route registration. Definitions either transcribe
the Go sources (`setupRoutes` in env.go, `failResponseWithCode` in
utilities.go) or, where the implementation file is absent and only its tests
are available, model the behaviour fixed by the specification and by those
tests; the latter are marked `Modelled from the spec:` in their doc comment.
-/

namespace Rond

/-- JSON values, the data interchanged with the policy engine
(Go `interface` values produced by `encoding/json`). -/
inductive Json where
  | null : Json
  | bool (b : Bool) : Json
  | num (n : Int) : Json
  | str (s : String) : Json
  | arr (elems : List Json) : Json
  | obj (fields : List (String × Json)) : Json

/- Character constants used by the JSON grammar. -/

def lbraceChar : Char := Char.ofNat 123

def rbraceChar : Char := Char.ofNat 125

def lbrackChar : Char := Char.ofNat 91

def rbrackChar : Char := Char.ofNat 93

def quoteChar : Char := Char.ofNat 34

def commaChar : Char := Char.ofNat 44

def colonChar : Char := Char.ofNat 58

def minusChar : Char := Char.ofNat 45

def spaceChar : Char := Char.ofNat 32

def newlineChar : Char := Char.ofNat 10

def tabChar : Char := Char.ofNat 9

def crChar : Char := Char.ofNat 13

def isJsonWs (c : Char) : Bool :=
  c = spaceChar || c = newlineChar || c = tabChar || c = crChar

def skipWs : List Char → List Char
  | [] => []
  | c :: cs => if isJsonWs c then skipWs cs else c :: cs

/-- Read the characters of a string literal up to the closing quote. -/
def takeStringLit : List Char → Option (List Char × List Char)
  | [] => none
  | c :: cs =>
    if c = quoteChar then some ([], cs)
    else
      match takeStringLit cs with
      | some (s, rest) => some (c :: s, rest)
      | none => none

/-- Split a leading run of decimal digits. -/
def takeDigits : List Char → List Char × List Char
  | [] => ([], [])
  | c :: cs =>
    if c.isDigit then
      let (ds, rest) := takeDigits cs
      (c :: ds, rest)
    else ([], c :: cs)

def digitsToNat (ds : List Char) : Nat :=
  ds.foldl (fun acc c => 10 * acc + (c.toNat - 48)) 0

/-- Check that a literal keyword is a prefix of the input and drop it. -/
def dropKeyword : List Char → List Char → Option (List Char)
  | [], input => some input
  | k :: ks, c :: cs => if c = k then dropKeyword ks cs else none
  | _ :: _, [] => none

mutual

/-- Recursive-descent JSON value parser (fuel-bounded). -/
def parseVal : Nat → List Char → Option (Json × List Char)
  | 0, _ => none
  | Nat.succ fuel, input =>
    match skipWs input with
    | [] => none
    | c :: cs =>
      if c = quoteChar then
        match takeStringLit cs with
        | some (s, rest) => some (.str (String.mk s), rest)
        | none => none
      else if c = lbraceChar then
        match skipWs cs with
        | d :: ds =>
          if d = rbraceChar then some (.obj [], ds)
          else
            match parseFields fuel (d :: ds) with
            | some (fs, rest) => some (.obj fs, rest)
            | none => none
        | [] => none
      else if c = lbrackChar then
        match skipWs cs with
        | d :: ds =>
          if d = rbrackChar then some (.arr [], ds)
          else
            match parseElems fuel (d :: ds) with
            | some (es, rest) => some (.arr es, rest)
            | none => none
        | [] => none
      else if c = minusChar then
        match takeDigits cs with
        | ([], _) => none
        | (ds, rest) => some (.num (-(digitsToNat ds : Int)), rest)
      else if c.isDigit then
        match takeDigits (c :: cs) with
        | (ds, rest) => some (.num (digitsToNat ds : Int), rest)
      else if c = 't' then
        (dropKeyword ['r', 'u', 'e'] cs).map fun rest => (.bool true, rest)
      else if c = 'f' then
        (dropKeyword ['a', 'l', 's', 'e'] cs).map fun rest => (.bool false, rest)
      else if c = 'n' then
        (dropKeyword ['u', 'l', 'l'] cs).map fun rest => (.null, rest)
      else none

/-- Parse one or more comma-separated array elements. -/
def parseElems : Nat → List Char → Option (List Json × List Char)
  | 0, _ => none
  | Nat.succ fuel, input =>
    match parseVal fuel input with
    | none => none
    | some (v, rest) =>
      match skipWs rest with
      | c :: cs =>
        if c = commaChar then
          match parseElems fuel cs with
          | some (vs, rest2) => some (v :: vs, rest2)
          | none => none
        else if c = rbrackChar then some ([v], cs)
        else none
      | [] => none

/-- Parse one or more comma-separated object fields. -/
def parseFields : Nat → List Char → Option (List (String × Json) × List Char)
  | 0, _ => none
  | Nat.succ fuel, input =>
    match skipWs input with
    | c :: cs =>
      if c = quoteChar then
        match takeStringLit cs with
        | none => none
        | some (k, rest) =>
          match skipWs rest with
          | d :: ds =>
            if d = colonChar then
              match parseVal fuel ds with
              | none => none
              | some (v, rest2) =>
                match skipWs rest2 with
                | e :: es =>
                  if e = commaChar then
                    match parseFields fuel es with
                    | some (fs, rest3) => some ((String.mk k, v) :: fs, rest3)
                    | none => none
                  else if e = rbraceChar then some ([(String.mk k, v)], es)
                  else none
                | [] => none
            else none
          | [] => none
      else none
    | [] => none

end

/-- Parse a full JSON document: one value with only whitespace after it,
mirroring `encoding/json.Unmarshal` which rejects trailing data. -/
def jsonParse (s : String) : Option Json :=
  match parseVal (2 * s.length + 2) s.data with
  | some (v, rest) => if skipWs rest = [] then some v else none
  | none => none

/-! ## HTTP data model -/

def semicolonChar : Char := Char.ofNat 59

/-- ASCII lower-casing of one character. -/
def lowerChar (c : Char) : Char :=
  if 65 ≤ c.toNat ∧ c.toNat ≤ 90 then Char.ofNat (c.toNat + 32) else c

/-- ASCII lower-casing of a string (header names are ASCII). -/
def strToLower (s : String) : String := String.mk (s.data.map lowerChar)

/-- Split a character list on a separator character; like `strings.Split`,
the result always has one more part than there are separators. -/
def splitListOn (sep : Char) : List Char → List (List Char)
  | [] => [[]]
  | c :: cs =>
    let rest := splitListOn sep cs
    if c = sep then [] :: rest
    else
      match rest with
      | r :: rs => (c :: r) :: rs
      | [] => [[c]]

/-- `strings.Split` on a one-character separator. -/
def splitStringOn (sep : Char) (s : String) : List String :=
  (splitListOn sep s.data).map String.mk

/-- A header set (`http.Header`): names with their first value; lookup is
case-insensitive, mirroring Go's canonicalized header access. -/
def getHeader (headers : List (String × String)) (key : String) : String :=
  match headers.find? (fun p => strToLower p.1 == strToLower key) with
  | some p => p.2
  | none => ""

/-- Replace (or add) a header value, as `Header.Set` does. -/
def setHeader (headers : List (String × String)) (key value : String) :
    List (String × String) :=
  (key, value) :: headers.filter (fun p => strToLower p.1 != strToLower key)

/-- The media type of a `Content-Type` value with any charset parameter
stripped: the part before the first semicolon. -/
def stripCharset (contentType : String) : String :=
  (splitStringOn semicolonChar contentType).headD ""

/-- An incoming HTTP request as seen by the input builder. -/
structure HttpRequest where
  method : String
  path : String
  pathParams : List (String × String)
  query : String
  headers : List (String × String)
  body : String

/-- The configurable header names from `EnvironmentVariables` (env.go) used
by the input builder and the transport. -/
structure EnvVars where
  userPropertiesHeader : String
  userGroupsHeader : String
  userIdHeader : String
  clientTypeHeader : String

/-! ## RBAC data model (types referenced by core tests) -/

structure Resource where
  resourceType : String
  resourceId : String
deriving DecidableEq

structure Binding where
  bindingId : String
  roles : List String
  permissions : List String
  resource : Option Resource
deriving DecidableEq

structure Role where
  roleId : String
  permissions : List String
deriving DecidableEq

structure User where
  userId : String
  userGroups : List String
  userBindings : List Binding
  userRoles : List Role
deriving DecidableEq

/-- Modelled from the spec: `key(p)` of §4.E — the permission itself for a
resourceless binding, else `p + ":" + resourceType + ":" + resourceId`
(`buildOptimizedResourcePermissionsMap` in core/opaevaluator.go is not
under src; only its test is). -/
def permKey (resource : Option Resource) (p : String) : String :=
  match resource with
  | none => p
  | some r => p ++ ":" ++ r.resourceType ++ ":" ++ r.resourceId

/-- The permissions of every role of `roles` whose id is `roleId`
(the lookup of a referenced role "in `user.roles`", §4.E). -/
def rolePermissions (roles : List Role) (roleId : String) : List String :=
  (roles.filter (fun r => r.roleId == roleId)).flatMap Role.permissions

/-- The keys contributed by one binding: role-derived permissions of the
roles it references plus its direct permissions, each through `permKey`. -/
def bindingPermissions (roles : List Role) (b : Binding) : List String :=
  (b.roles.flatMap (rolePermissions roles) ++ b.permissions).map (permKey b.resource)

/-- Modelled from the spec: `buildOptimizedResourcePermissionsMap` (§4.E;
core/opaevaluator.go is not under src, only its test
`TestBuildOptimizedResourcePermissionsMap`). The flat set of
`permission[:type:id]` strings implied by the user's bindings and roles. -/
def buildOptimizedResourcePermissionsMap (user : User) : Finset String :=
  (user.userBindings.flatMap (bindingPermissions user.userRoles)).toFinset

/-! ## Input builder -/

/-- Modelled from the spec: decoding of the user-properties header inside
`CreateRegoQueryInput` (§4.C; core/opaevaluator.go is not under src, only
`TestCreateRegoInput`): an empty header value decodes to the empty object,
a non-empty value must be a JSON object. -/
def decodeUserProperties (value : String) : Except String (List (String × Json)) :=
  if value = "" then .ok []
  else
    match jsonParse value with
    | some (Json.obj fields) => .ok fields
    | _ => .error "user properties header is not valid"

/-- Modelled from the spec: `user.groups` — the configured header value
split on `,` (§4.C); an absent header yields no groups. -/
def splitGroups (value : String) : List String :=
  if value = "" then [] else splitStringOn commaChar value

/-- The methods for which a JSON request body is parsed into the input
(§4.C and `TestCreateRegoInput`). -/
def jsonAcceptedMethods : List String := ["POST", "PUT", "PATCH", "DELETE"]

/-- Modelled from the spec: the request body is parsed only when the method
accepts one AND the `Content-Type` (charset stripped) is exactly
`application/json` (§4.C invariant). -/
def shouldParseJSONBody (req : HttpRequest) : Bool :=
  jsonAcceptedMethods.contains req.method &&
    stripCharset (getHeader req.headers "Content-Type") == "application/json"

/-- The `request` section of the policy input (§3). -/
structure InputRequest where
  method : String
  path : String
  pathParams : List (String × String)
  query : String
  headers : List (String × String)
  body : Option Json

/-- The `user` section of the policy input (§3). -/
structure InputUser where
  properties : List (String × Json)
  groups : List String
  bindings : List Binding
  roles : List Role
  resourcePermissionsMap : Option (Finset String)

/-- The policy input document (§3). -/
structure RegoInput where
  request : InputRequest
  responseBody : Option Json
  user : InputUser
  clientType : String

/-- Modelled from the spec: `CreateRegoQueryInput` (§4.C;
core/opaevaluator.go is not under src, only `TestCreateRegoInput`).
Assembles the policy input from the request, the configured headers and the
RBAC data; decode failures of the user-properties header or of a JSON body
are hard errors. -/
def CreateRegoQueryInput (req : HttpRequest) (env : EnvVars)
    (enableResourcePermissionsMapOptimization : Bool) (user : User)
    (responseBody : Option Json) : Except String RegoInput := do
  let properties ← decodeUserProperties (getHeader req.headers env.userPropertiesHeader)
  let groups := splitGroups (getHeader req.headers env.userGroupsHeader)
  let body ←
    if shouldParseJSONBody req && req.body != "" then
      match jsonParse req.body with
      | some j => Except.ok (some j)
      | none => Except.error "failed request body deserialization"
    else Except.ok none
  Except.ok
    { request :=
        { method := req.method
          path := req.path
          pathParams := req.pathParams
          query := req.query
          headers := req.headers
          body := body }
      responseBody := responseBody
      user :=
        { properties := properties
          groups := groups
          bindings := user.userBindings
          roles := user.userRoles
          resourcePermissionsMap :=
            if enableResourcePermissionsMapOptimization then
              some (buildOptimizedResourcePermissionsMap user)
            else none }
      clientType := getHeader req.headers env.clientTypeHeader }

/-! ## Error responses -/

/-- The denial message of §7: policy denials produce 403 with this text. -/
def NO_PERMISSIONS_ERROR_MESSAGE : String :=
  "you don't have permissions to access this resource"

/-- Modelled from the spec: the generic message used by the transport's
error responses for non-403 codes (the `utils` constant is not under src;
`TestOPATransportResponseWithError` fixes that the 500 message differs from
the 403 one and is a fixed business-error text). -/
def GENERIC_BUSINESS_ERROR_MESSAGE : String :=
  "Internal server error, please try again later"

/-- The message field of a transport error response is selected from the
status code alone (`TestOPATransportResponseWithError`). -/
def errorMessageForStatus (statusCode : Nat) : String :=
  if statusCode = 403 then NO_PERMISSIONS_ERROR_MESSAGE
  else GENERIC_BUSINESS_ERROR_MESSAGE

/-- Modelled from the spec: the serialized §6 error shape
`\x7b statusCode, message, error \x7d` produced from `types.RequestError`
(not under src). -/
def serializeRequestError (statusCode : Nat) (message err : String) : String :=
  "\x7b\"statusCode\":" ++ toString statusCode ++ ",\"message\":\"" ++ message ++
    "\",\"error\":\"" ++ err ++ "\"\x7d"

/-! ## Response transport -/

/-- The outcome of draining a response body: the bytes read to EOF, or the
read/close failure (the `MockReader` cases of `TestOPATransportRoundTrip`). -/
inductive BodyOutcome where
  | bytes (b : String) : BodyOutcome
  | readError (e : String) : BodyOutcome
  | closeError (e : String) : BodyOutcome
deriving DecidableEq

/-- An HTTP response as handled by the transport. -/
structure HttpResponse where
  statusCode : Nat
  headers : List (String × String)
  body : BodyOutcome
deriving DecidableEq

/-- Modelled from the spec: `is2XX` (opatransport.go is not under src;
`TestIs2xx` fixes 200 and 201 inside, 199 and 300 outside). -/
def is2XX (statusCode : Nat) : Bool :=
  200 ≤ statusCode && statusCode < 300

/-- Modelled from the spec: `OPATransport.responseWithError` (opatransport.go
is not under src; `TestOPATransportResponseWithError` fixes the body bytes
and the recomputed `content-length` header). The response is rewritten in
place with the serialized §6 error and its content-length updated. -/
def responseWithError (resp : HttpResponse) (err : String) (statusCode : Nat) :
    HttpResponse :=
  let content := serializeRequestError statusCode (errorMessageForStatus statusCode) err
  { statusCode := statusCode
    headers := setHeader resp.headers "Content-Length" (toString content.length)
    body := .bytes content }

/-- Modelled from the spec: the 500 response synthesized for a 2xx target
response whose content type is not `application/json` (§4.F step 3: body
`\x7b statusCode:500, message:"content-type is not application/json",
error:<reason> \x7d`, original response discarded). -/
def contentTypeErrorResponse (resp : HttpResponse) : HttpResponse :=
  let content := serializeRequestError 500 "content-type is not application/json"
    "content-type is not application/json"
  { statusCode := 500
    headers := setHeader resp.headers "Content-Length" (toString content.length)
    body := .bytes content }

/-- Modelled from the spec: `OPATransport.RoundTrip` (opatransport.go is not
under src; §4.F together with `TestOPATransportRoundTrip`, whose cases fix
the evaluation order: underlying error, non-2xx pass-through, body read and
close failures, empty-body pass-through, content-type check, body decoding,
RBAC retrieval, input building, response-policy evaluation). The underlying
round-trip, the RBAC retrieval and the response-flow policy evaluation are
supplied as explicit outcomes. -/
def RoundTrip (underlying : Except String HttpResponse) (req : HttpRequest)
    (env : EnvVars) (retrieveUserBindingsAndRoles : Except String User)
    (evalResponsePolicy : RegoInput → Except String Json) :
    Except String HttpResponse :=
  match underlying with
  | .error e => .error e
  | .ok resp =>
    if is2XX resp.statusCode then
      match resp.body with
      | .readError e => .error e
      | .closeError e => .error e
      | .bytes b =>
        if b = "" then .ok resp
        else if stripCharset (getHeader resp.headers "Content-Type") ≠ "application/json" then
          .ok (contentTypeErrorResponse resp)
        else
          match jsonParse b with
          | none => .error "response body is not valid"
          | some decodedBody =>
            match retrieveUserBindingsAndRoles with
            | .error e => .ok (responseWithError resp e 500)
            | .ok user =>
              match CreateRegoQueryInput req env false user (some decodedBody) with
              | .error e => .ok (responseWithError resp e 500)
              | .ok input =>
                match evalResponsePolicy input with
                | .error e => .ok (responseWithError resp e 403)
                | .ok _ => .ok resp
    else .ok resp

/-! ## Policy engine: query-name sanitization -/

def dotChar : Char := Char.ofNat 46

def underscoreChar : Char := Char.ofNat 95

/-- Modelled from the spec: query-name sanitization in `NewOPAEvaluator`
(§4.B; core/opaevaluator.go is not under src, only `TestNewOPAEvaluator`):
every `.` of the configured policy name is replaced by `_` before the query
reference is built. -/
def sanitizePolicyName (name : String) : String :=
  String.mk (name.data.map fun c => if c = dotChar then underscoreChar else c)

/-- The query reference prepared for a policy name:
`data.policies.<sanitized name>` (§4.B). -/
def queryReference (name : String) : String :=
  "data.policies." ++ sanitizePolicyName name

/-- Modelled from the spec: preparing an evaluator binds the sanitized query
name, so evaluation succeeds exactly when the module declares a rule with
the sanitized name (§4.B; the OPA engine itself is external). -/
def evalPreparedQuery (declaredRules : List String) (policyName : String) : Bool :=
  declaredRules.contains (sanitizePolicyName policyName)

/-! ## Route policy configuration (§3) -/

/-- The request flow of a route's policy configuration. -/
structure RequestFlow where
  policyName : String
  generateQuery : Bool
  queryHeaderName : String
deriving DecidableEq

/-- The response flow of a route's policy configuration. -/
structure ResponseFlow where
  policyName : String
deriving DecidableEq

/-- A route's policy configuration (`openapi.RondConfig`): two optional
flows (§3). -/
structure RondConfig where
  requestFlow : Option RequestFlow
  responseFlow : Option ResponseFlow
deriving DecidableEq

/-! ## Request handler -/

/-- What the handler does with a request: proxy it to the target (possibly
with an injected residual-query header), deny it, or answer an error
response. Only `proxied` sends anything to the target service. -/
inductive HandlerOutcome where
  | proxied (queryHeader : Option (String × String)) : HandlerOutcome
  | denied (statusCode : Nat) (message : String) : HandlerOutcome
  | errorResponse (statusCode : Nat) (message : String) : HandlerOutcome
deriving DecidableEq

/-- Whether an outcome sends the request to the target service. -/
def sentToTarget : HandlerOutcome → Bool
  | .proxied _ => true
  | .denied _ _ => false
  | .errorResponse _ _ => false

/-- Modelled from the spec: the request-flow branch of the policy handler
(`rbacHandler`, §4.G, not under src; `TestEntryPoint` fixes the denial
behaviour). The assembled input and the evaluation outcomes are supplied
explicitly: with `generateQuery` the residual query is serialized into the
configured carrier header, otherwise a false allow decision denies with 403
and a policy runtime error answers 500. -/
def handleRequestFlow (rf : RequestFlow) (inputResult : Except String RegoInput)
    (evalAllow : RegoInput → Except String Bool)
    (evalPartial : RegoInput → Except String String) : HandlerOutcome :=
  match inputResult with
  | .error e => .errorResponse 500 e
  | .ok input =>
    if rf.generateQuery then
      match evalPartial input with
      | .error e => .errorResponse 500 e
      | .ok residual => .proxied (some (rf.queryHeaderName, residual))
    else
      match evalAllow input with
      | .error e => .errorResponse 500 e
      | .ok false => .denied 403 NO_PERMISSIONS_ERROR_MESSAGE
      | .ok true => .proxied none

/-- Modelled from the spec: the per-request policy handler (`rbacHandler`,
§4.G, not under src). A route without a policy configuration, or whose
configuration has no request flow, always proxies; otherwise the request
flow decides. -/
def rbacHandler (config : Option RondConfig) (inputResult : Except String RegoInput)
    (evalAllow : RegoInput → Except String Bool)
    (evalPartial : RegoInput → Except String String) : HandlerOutcome :=
  match config with
  | none => .proxied none
  | some cfg =>
    match cfg.requestFlow with
    | none => .proxied none
    | some rf => handleRequestFlow rf inputResult evalAllow evalPartial

/-! ## Error response helpers (utilities.go) -/

/-- `RequestError` as declared in utilities.go (package main): fields
`Error`, `StatusCode`, `Message` without JSON tags, so `json.Marshal`
serializes the capitalized field names in declaration order. -/
structure MainRequestError where
  error : String
  statusCode : Nat
  message : String
deriving DecidableEq

/-- The bytes `json.Marshal` produces for the utilities.go `RequestError`. -/
def marshalMainRequestError (e : MainRequestError) : String :=
  "\x7b\"Error\":\"" ++ e.error ++ "\",\"StatusCode\":" ++ toString e.statusCode ++
    ",\"Message\":\"" ++ e.message ++ "\"\x7d"

/-- A response as assembled through an `http.ResponseWriter`: the status
set by `WriteHeader`, the headers explicitly set by the handler, and the
written body. -/
structure WrittenResponse where
  status : Nat
  headers : List (String × String)
  body : String
deriving DecidableEq

/-- `failResponseWithCode` from utilities.go: `WriteHeader(statusCode)`
followed by `Write` of the marshalled `RequestError\x7bStatusCode,
Message\x7d`; no header is set by the function. -/
def failResponseWithCode (statusCode : Nat) (message : String) : WrittenResponse :=
  { status := statusCode
    headers := []
    body := marshalMainRequestError
      { error := "", statusCode := statusCode, message := message } }

/-- `failResponse` from utilities.go: a 500 `failResponseWithCode`. -/
def failResponse (message : String) : WrittenResponse :=
  failResponseWithCode 500 message

/-- Modelled from the spec: `utils.FailResponseWithCode` (internal/utils is
not under src; `TestFailResponseWithCode` fixes that it sets
`Content-Type: application/json` and writes the §6 error shape with the
given error and message). -/
def FailResponseWithCode (statusCode : Nat) (err message : String) : WrittenResponse :=
  { status := statusCode
    headers := [("Content-Type", "application/json")]
    body := serializeRequestError statusCode message err }

/-! ## Route registration (setupRoutes, env.go) -/

/-- A verb entry of the OpenAPI specification (`openapi.VerbConfig`):
its optional `x-rond` policy configuration. -/
structure VerbConfig where
  permissionV2 : Option RondConfig
deriving DecidableEq

/-- The loaded OpenAPI specification: its paths, each with its verb map,
as association lists. -/
structure OpenAPISpec where
  paths : List (String × List (String × VerbConfig))
deriving DecidableEq

/-- The environment fields consulted by `setupRoutes`. -/
structure SetupEnv where
  standalone : Bool
  pathPrefixStandalone : String
  targetServiceOASPath : String
deriving DecidableEq

/-- The policy name of a configuration's request flow
(`PermissionV2.RequestFlow.PolicyName`; empty when the flow is absent). -/
def rondConfigRequestFlowPolicyName (cfg : RondConfig) : String :=
  match cfg.requestFlow with
  | some rf => rf.policyName
  | none => ""

/-- Modelled from the spec: the reserved status/metrics routes never wired
through the policy handler (`statusRoutes` and the metrics route path are
not under src; §6 names the ready and healthz status routes and a metrics
scrape path). -/
def routesToNotProxy : List String := ["/-/ready", "/-/healthz", "/-/metrics"]

/-- The OpenAPI method key that expands to all supported methods
(`openapi.AllHTTPMethod`). -/
def AllHTTPMethod : String := "all"

/-- Modelled from the spec: the full supported HTTP method set to which
`"ALL"` expands (§4.D rule 3; `openapi.OasSupportedHTTPMethods` is not
under src). -/
def OasSupportedHTTPMethods : List String :=
  ["GET", "POST", "PUT", "PATCH", "DELETE"]

def starChar : Char := Char.ofNat 42

def slashChar : Char := Char.ofNat 47

/-- `strings.ReplaceAll(path, "*", "")`. -/
def removeStars (p : String) : String :=
  String.mk (p.data.filter fun c => c ≠ starChar)

/-- Modelled from the spec: `openapi.ConvertPathVariablesToBrackets` (not
under src; §4.D rule 2: path variables are translated to the router's
`\x7bname\x7d` capture syntax). -/
def convertPathVariablesToBrackets (p : String) : String :=
  String.intercalate "/" ((splitStringOn slashChar p).map fun seg =>
    if seg.startsWith ":" then "\x7b" ++ seg.drop 1 ++ "\x7d" else seg)

/-- Which handler a route is wired to. -/
inductive HandlerKind where
  | rbac : HandlerKind
  | alwaysProxy : HandlerKind
deriving DecidableEq

/-- One route registered on the router: its (converted) path, whether it is
a prefix match, the handler, and the methods (`[]` meaning unrestricted). -/
structure RouteRegistration where
  path : String
  isPrefix : Bool
  handler : HandlerKind
  methods : List String
deriving DecidableEq

/-- Association-list lookup of a path of the specification. -/
def lookupPath (oas : OpenAPISpec) (p : String) : Option (List (String × VerbConfig)) :=
  (oas.paths.find? fun q => q.1 == p).map Prod.snd

/-- The `documentationPermission` computed at the top of `setupRoutes`: the
request-flow policy name of the GET verb of the documentation path, when
present. -/
def documentationPermission (oas : OpenAPISpec) (env : SetupEnv) : String :=
  match lookupPath oas env.targetServiceOASPath with
  | none => ""
  | some verbs =>
    match (verbs.find? fun mv => mv.1 == "get").map Prod.snd with
    | some vc =>
      match vc.permissionV2 with
      | some cfg => rondConfigRequestFlowPolicyName cfg
      | none => ""
    | none => ""

/-- The per-path method accumulation of `setupRoutes`: an `all` key replaces
the accumulator with the full supported set, any other key appends its
upper-cased name. -/
def methodsForPath (verbs : List (String × VerbConfig)) : List String :=
  verbs.foldl
    (fun acc mv =>
      if mv.1 = AllHTTPMethod then OasSupportedHTTPMethods
      else acc ++ [mv.1.toUpper])
    []

/-- The methods registered for a specification path. -/
def methodsMap (oas : OpenAPISpec) (p : String) : List String :=
  match lookupPath oas p with
  | some verbs => methodsForPath verbs
  | none => []

/-- One iteration of the registration loop of `setupRoutes`: apply the
standalone prefix, skip reserved routes, register wildcard paths as prefix
matches with the asterisk stripped, always-proxy an unprotected
documentation path, and wire everything else to the policy handler. -/
def registerRoute (env : SetupEnv) (docPermission : String)
    (methods : String → List String) (path : String) : Option RouteRegistration :=
  let pathToRegister := if env.standalone then env.pathPrefixStandalone ++ path else path
  if routesToNotProxy.contains pathToRegister then none
  else if pathToRegister.data.contains starChar then
    some { path := convertPathVariablesToBrackets (removeStars pathToRegister)
           isPrefix := true
           handler := .rbac
           methods := methods path }
  else if path == env.targetServiceOASPath && docPermission == "" then
    some { path := convertPathVariablesToBrackets pathToRegister
           isPrefix := false
           handler := .alwaysProxy
           methods := ["GET"] }
  else
    some { path := convertPathVariablesToBrackets pathToRegister
           isPrefix := false
           handler := .rbac
           methods := methods path }

/-- The enumerated path list of the specification. -/
def enumeratePaths (oas : OpenAPISpec) : List String :=
  oas.paths.map Prod.fst

/-- The path list sorted by `sort.Sort(sort.Reverse(sort.StringSlice(paths)))`:
reverse lexicographic order. -/
def sortedPaths (oas : OpenAPISpec) : List String :=
  List.insertionSort (α := String) (· ≥ ·) (enumeratePaths oas)

/-- `setupRoutes` from env.go as the ordered list of routes it registers:
the registration loop over the reverse-sorted paths, then the always-proxy
fallback for an undeclared documentation path, then the final `/` prefix
fallback to the policy handler. -/
def setupRoutes (oas : OpenAPISpec) (env : SetupEnv) : List RouteRegistration :=
  (sortedPaths oas).filterMap
      (registerRoute env (documentationPermission oas env) (methodsMap oas)) ++
    (match lookupPath oas env.targetServiceOASPath with
     | none =>
       [{ path := convertPathVariablesToBrackets env.targetServiceOASPath
          isPrefix := false
          handler := .alwaysProxy
          methods := [] }]
     | some _ => []) ++
    [{ path := if env.standalone then env.pathPrefixStandalone ++ "/" else "/"
       isPrefix := true
       handler := .rbac
       methods := [] }]

/-! ## Concrete instances used by witnesses -/

/-- The user of `TestBuildOptimizedResourcePermissionsMap`'s scenario 5:
role `role1 = [p1, p2]` and one binding on resource `(type1, resource1)`
referencing `role1` with direct permission `pN`. -/
def c7User : User :=
  { userId := ""
    userGroups := []
    userBindings := [{ bindingId := "", roles := ["role1"], permissions := ["pN"],
                       resource := some { resourceType := "type1", resourceId := "resource1" } }]
    userRoles := [{ roleId := "role1", permissions := ["p1", "p2"] }] }

/-- A route configuration with a plain (non-`generateQuery`) request flow. -/
def c1Config : RondConfig :=
  { requestFlow := some { policyName := "allow", generateQuery := false, queryHeaderName := "" }
    responseFlow := none }

/-- A minimal assembled policy input for a `POST /users/` request. -/
def c1Input : RegoInput :=
  { request := { method := "POST", path := "/users/", pathParams := [], query := ""
                 headers := [], body := none }
    responseBody := none
    user := { properties := [], groups := [], bindings := [], roles := []
              resourcePermissionsMap := none }
    clientType := "" }

/-! ## Theorems -/

/-- Helper: the header value just set is the one read back. -/
theorem getHeader_setHeader (hs : List (String × String)) (k v : String) :
    getHeader (setHeader hs k v) k = v := by
  unfold getHeader setHeader
  rw [List.find?_cons_of_pos]
  exact beq_self_eq_true _

/-- Claim C1: for a route with a request flow and `generateQuery` false, a
false allow-policy evaluation makes the handler answer 403 with message
"you don't have permissions to access this resource", and nothing is sent
to the target service. -/
theorem requestFlow_denied_403_not_proxied (cfg : RondConfig) (rf : RequestFlow)
    (input : RegoInput) (evalAllow : RegoInput → Except String Bool)
    (evalPartial : RegoInput → Except String String)
    (hrf : cfg.requestFlow = some rf) (hgen : rf.generateQuery = false)
    (heval : evalAllow input = .ok false) :
    rbacHandler (some cfg) (.ok input) evalAllow evalPartial =
      .denied 403 "you don't have permissions to access this resource" ∧
    sentToTarget (rbacHandler (some cfg) (.ok input) evalAllow evalPartial) = false := by
  simp [rbacHandler, hrf, handleRequestFlow, hgen, heval, sentToTarget,
    NO_PERMISSIONS_ERROR_MESSAGE]

/-- Witness for C1 at a concrete denied `POST /users/` request. -/
theorem requestFlow_denied_403_not_proxied_witness :
    rbacHandler (some c1Config) (.ok c1Input) (fun _ => .ok false) (fun _ => .ok "") =
      .denied 403 "you don't have permissions to access this resource" ∧
    sentToTarget (rbacHandler (some c1Config) (.ok c1Input) (fun _ => .ok false)
      (fun _ => .ok "")) = false :=
  requestFlow_denied_403_not_proxied c1Config _ c1Input _ _ rfl rfl rfl

/-- Claim C2: provided the user-properties header decodes, the input's
`request.body` is present only when the method is an accepted JSON method
and the charset-stripped content type is exactly `application/json`; for
any other method or content type the builder succeeds with the body field
absent. -/
theorem request_body_only_for_json_methods (req : HttpRequest) (env : EnvVars)
    (user : User) (props : List (String × Json))
    (hprops : decodeUserProperties (getHeader req.headers env.userPropertiesHeader) =
      .ok props) :
    (∀ input, CreateRegoQueryInput req env false user none = .ok input →
        input.request.body.isSome = true →
        jsonAcceptedMethods.contains req.method = true ∧
          stripCharset (getHeader req.headers "Content-Type") = "application/json") ∧
      ((jsonAcceptedMethods.contains req.method = false ∨
          stripCharset (getHeader req.headers "Content-Type") ≠ "application/json") →
        ∃ input, CreateRegoQueryInput req env false user none = .ok input ∧
          input.request.body = none) := by
  have hnoparse : ∀ _ : shouldParseJSONBody req = false,
      CreateRegoQueryInput req env false user none = .ok
        { request :=
            { method := req.method, path := req.path, pathParams := req.pathParams,
              query := req.query, headers := req.headers, body := none }
          responseBody := none
          user :=
            { properties := props
              groups := splitGroups (getHeader req.headers env.userGroupsHeader)
              bindings := user.userBindings, roles := user.userRoles
              resourcePermissionsMap := none }
          clientType := getHeader req.headers env.clientTypeHeader } := by
    intro h
    simp [CreateRegoQueryInput, hprops, h]
    rfl
  constructor
  · intro input hok hsome
    by_cases h : shouldParseJSONBody req
    · have := h
      simp only [shouldParseJSONBody, Bool.and_eq_true, beq_iff_eq] at this
      exact this
    · rw [Bool.not_eq_true] at h
      rw [hnoparse h] at hok
      cases hok
      simp at hsome
  · intro hm
    have h : shouldParseJSONBody req = false := by
      unfold shouldParseJSONBody
      rcases hm with hm | hm
      · rw [hm, Bool.false_and]
      · rw [beq_eq_false_iff_ne.mpr hm, Bool.and_false]
    exact ⟨_, hnoparse h, rfl⟩

/-- Witness for C2: a GET request carrying a JSON body builds an input
without a body field and raises no error. -/
theorem request_body_only_for_json_methods_witness :
    ∃ input,
      CreateRegoQueryInput
          ⟨"GET", "/", [], "",
            [("Content-Type", "application/json")], "\x7b\"Key\":42\x7d"⟩
          ⟨"userproperties", "usergroups", "userid", "client-type"⟩
          false ⟨"", [], [], []⟩ none = .ok input ∧
        input.request.body = none := by
  have h := request_body_only_for_json_methods
    ⟨"GET", "/", [], "", [("Content-Type", "application/json")], "\x7b\"Key\":42\x7d"⟩
    ⟨"userproperties", "usergroups", "userid", "client-type"⟩
    ⟨"", [], [], []⟩ [] rfl
  exact h.2 (Or.inl rfl)

/-- Claim C3: the query reference of a prepared evaluator replaces every
dot of the policy name by an underscore, so no character of the policy
segment is a dot; for `very.composed.policy` the bound query is
`very_composed_policy`, which a module declaring that rule satisfies. -/
theorem policy_name_sanitization (name : String) (c : Char)
    (hc : c ∈ (sanitizePolicyName name).data) :
    c ≠ dotChar ∧
    sanitizePolicyName "very.composed.policy" = "very_composed_policy" ∧
    queryReference "very.composed.policy" = "data.policies.very_composed_policy" ∧
    evalPreparedQuery ["very_composed_policy"] "very.composed.policy" = true := by
  refine ⟨?_, rfl, rfl, rfl⟩
  obtain ⟨d, _, rfl⟩ := List.mem_map.mp hc
  by_cases hd : d = dotChar
  · simp only [hd, if_pos rfl]
    decide
  · simp only [if_neg hd]
    exact hd

/-- Witness for C3 at the first character of a sanitized concrete name. -/
theorem policy_name_sanitization_witness :
    'v' ≠ dotChar ∧
    sanitizePolicyName "very.composed.policy" = "very_composed_policy" ∧
    queryReference "very.composed.policy" = "data.policies.very_composed_policy" ∧
    evalPreparedQuery ["very_composed_policy"] "very.composed.policy" = true :=
  policy_name_sanitization "very.composed.policy" 'v' (by decide)

/-- Claim C4: a non-2xx underlying response is returned by the transport
untouched and without error (so its body is byte-identical), and the 2xx
test holds exactly for status codes between 200 and 299. -/
theorem roundTrip_non2xx_untouched (resp : HttpResponse) (req : HttpRequest)
    (env : EnvVars) (ub : Except String User) (ev : RegoInput → Except String Json)
    (h : is2XX resp.statusCode = false) :
    RoundTrip (.ok resp) req env ub ev = .ok resp ∧
      ∀ s : Nat, is2XX s = true ↔ 200 ≤ s ∧ s ≤ 299 := by
  constructor
  · simp [RoundTrip, h]
  · intro s
    simp [is2XX]
    omega

/-- Witness for C4 at a concrete 417 response. -/
theorem roundTrip_non2xx_untouched_witness :
    RoundTrip (.ok ⟨417, [], .bytes "original"⟩)
        ⟨"POST", "/some-api", [], "", [], ""⟩
        ⟨"userpropertiesheader", "usergroupsheader", "useridheader", "client-type"⟩
        (.ok ⟨"", [], [], []⟩) (fun _ => .ok Json.null) =
      .ok ⟨417, [], .bytes "original"⟩ ∧
    (is2XX 299 = true ↔ 200 ≤ 299 ∧ 299 ≤ 299) := by
  have h := roundTrip_non2xx_untouched ⟨417, [], .bytes "original"⟩
    ⟨"POST", "/some-api", [], "", [], ""⟩
    ⟨"userpropertiesheader", "usergroupsheader", "useridheader", "client-type"⟩
    (.ok ⟨"", [], [], []⟩) (fun _ => .ok Json.null) (by decide)
  exact ⟨h.1, h.2 299⟩

/-- Claim C5 counterexample: a 2xx response with an empty body and a
content type that is not `application/json` is returned unchanged, not
replaced by a synthesized 500, refuting the claim for body-less responses. -/
theorem roundTrip_content_type_empty_body_counterexample :
    is2XX 200 = true ∧
    stripCharset (getHeader ([("Some", "content")] : List (String × String))
        "Content-Type") ≠ "application/json" ∧
    RoundTrip (.ok ⟨200, [("Some", "content")], .bytes ""⟩)
        ⟨"POST", "/some-api", [], "", [], ""⟩
        ⟨"userpropertiesheader", "usergroupsheader", "useridheader", "client-type"⟩
        (.ok ⟨"", [], [], []⟩) (fun _ => .ok Json.null) =
      .ok ⟨200, [("Some", "content")], .bytes ""⟩ ∧
    (⟨200, [("Some", "content")], .bytes ""⟩ : HttpResponse).statusCode ≠ 500 :=
  ⟨rfl, by decide, rfl, by decide⟩

/-- Claim C5 (amended): a 2xx response with a NON-EMPTY body whose
charset-stripped content type is not exactly `application/json` is
discarded and replaced by a synthesized 500 whose JSON body carries
statusCode 500 and the message "content-type is not application/json". -/
theorem roundTrip_content_type_error_500 (resp : HttpResponse) (req : HttpRequest)
    (env : EnvVars) (ub : Except String User) (ev : RegoInput → Except String Json)
    (b : String)
    (h2 : is2XX resp.statusCode = true) (hb : resp.body = .bytes b) (hne : b ≠ "")
    (hct : stripCharset (getHeader resp.headers "Content-Type") ≠ "application/json") :
    RoundTrip (.ok resp) req env ub ev = .ok (contentTypeErrorResponse resp) ∧
    (contentTypeErrorResponse resp).statusCode = 500 ∧
    (contentTypeErrorResponse resp).body =
      .bytes (serializeRequestError 500 "content-type is not application/json"
        "content-type is not application/json") := by
  refine ⟨?_, rfl, rfl⟩
  simp [RoundTrip, h2, hb, hne, hct]

set_option maxRecDepth 16384 in
/-- Witness for C5 at a concrete 200 `text/plain` response. -/
theorem roundTrip_content_type_error_500_witness :
    RoundTrip (.ok ⟨200, [("Content-Type", "text/plain")], .bytes "original response"⟩)
        ⟨"POST", "/some-api", [], "", [], ""⟩
        ⟨"userpropertiesheader", "usergroupsheader", "useridheader", "client-type"⟩
        (.ok ⟨"", [], [], []⟩) (fun _ => .ok Json.null) =
      .ok (contentTypeErrorResponse
        ⟨200, [("Content-Type", "text/plain")], .bytes "original response"⟩) ∧
    (contentTypeErrorResponse
      ⟨200, [("Content-Type", "text/plain")], .bytes "original response"⟩).statusCode = 500 ∧
    (contentTypeErrorResponse
        ⟨200, [("Content-Type", "text/plain")], .bytes "original response"⟩).body =
      .bytes (serializeRequestError 500 "content-type is not application/json"
        "content-type is not application/json") :=
  roundTrip_content_type_error_500
    ⟨200, [("Content-Type", "text/plain")], .bytes "original response"⟩
    ⟨"POST", "/some-api", [], "", [], ""⟩
    ⟨"userpropertiesheader", "usergroupsheader", "useridheader", "client-type"⟩
    (.ok ⟨"", [], [], []⟩) (fun _ => .ok Json.null) "original response"
    (by decide) rfl (by decide) (by decide)

set_option maxRecDepth 30000 in
/-- Claim C6: an empty user-properties header decodes to the empty object
and the input builder succeeds, while a non-empty non-JSON value (such as
the braces garbage of the tests) makes input building fail and the
transport answer a 500 whose body contains
"user properties header is not valid". -/
theorem user_properties_header_validation (resp : HttpResponse) (req : HttpRequest)
    (env : EnvVars) (user : User) (ev : RegoInput → Except String Json)
    (b : String) (d : Json)
    (h2 : is2XX resp.statusCode = true) (hb : resp.body = .bytes b) (hne : b ≠ "")
    (hct : stripCharset (getHeader resp.headers "Content-Type") = "application/json")
    (hparse : jsonParse b = some d)
    (hheader : getHeader req.headers env.userPropertiesHeader =
      "\x7b\x7d\x7b\x7d\x7b\x7b") :
    decodeUserProperties "" = .ok [] ∧
    (CreateRegoQueryInput ⟨"GET", "/", [], "", [("userproperties", "")], ""⟩
        ⟨"userproperties", "usergroups", "userid", "client-type"⟩ false
        ⟨"", [], [], []⟩ none).isOk = true ∧
    RoundTrip (.ok resp) req env (.ok user) ev =
      .ok (responseWithError resp "user properties header is not valid" 500) ∧
    (responseWithError resp "user properties header is not valid" 500).statusCode = 500 ∧
    (responseWithError resp "user properties header is not valid" 500).body =
      .bytes (serializeRequestError 500 GENERIC_BUSINESS_ERROR_MESSAGE
        "user properties header is not valid") ∧
    ("user properties header is not valid").data <:+:
      (serializeRequestError 500 GENERIC_BUSINESS_ERROR_MESSAGE
        "user properties header is not valid").data := by
  have hdec : decodeUserProperties "\x7b\x7d\x7b\x7d\x7b\x7b" =
      .error "user properties header is not valid" := rfl
  have hinput : CreateRegoQueryInput req env false user (some d) =
      .error "user properties header is not valid" := by
    simp [CreateRegoQueryInput, hheader, hdec]
    rfl
  refine ⟨rfl, rfl, ?_, rfl, rfl, by decide⟩
  simp [RoundTrip, h2, hb, hne, hct, hparse, hinput]

set_option maxRecDepth 30000 in
/-- Witness for C6 at the concrete transport setup of the tests. -/
theorem user_properties_header_validation_witness :
    RoundTrip (.ok ⟨200, [("Content-Type", "application/json")],
          .bytes "\x7b\"hey\":\"there\"\x7d"⟩)
        ⟨"POST", "/some-api", [], "",
          [("userpropertiesheader", "\x7b\x7d\x7b\x7d\x7b\x7b")], ""⟩
        ⟨"userpropertiesheader", "usergroupsheader", "useridheader", "client-type"⟩
        (.ok ⟨"", [], [], []⟩) (fun _ => .ok Json.null) =
      .ok (responseWithError
        ⟨200, [("Content-Type", "application/json")], .bytes "\x7b\"hey\":\"there\"\x7d"⟩
        "user properties header is not valid" 500) :=
  (user_properties_header_validation
    ⟨200, [("Content-Type", "application/json")], .bytes "\x7b\"hey\":\"there\"\x7d"⟩
    ⟨"POST", "/some-api", [], "",
      [("userpropertiesheader", "\x7b\x7d\x7b\x7d\x7b\x7b")], ""⟩
    ⟨"userpropertiesheader", "usergroupsheader", "useridheader", "client-type"⟩
    ⟨"", [], [], []⟩ (fun _ => .ok Json.null)
    "\x7b\"hey\":\"there\"\x7d" (Json.obj [("hey", Json.str "there")])
    rfl rfl (by decide) rfl rfl rfl).2.2.1

/-- Claim C7: membership in the optimized resource-permissions map is
exactly `key(p)` for a permission of a role referenced by a binding (looked
up among the user's roles) or a direct binding permission, and the
literal example of the specification evaluates to the expected set. -/
theorem buildOptimizedResourcePermissionsMap_characterization :
    (∀ (user : User) (s : String),
        s ∈ buildOptimizedResourcePermissionsMap user ↔
          ∃ b ∈ user.userBindings,
            (∃ rid ∈ b.roles, ∃ role ∈ user.userRoles, role.roleId = rid ∧
                ∃ p ∈ role.permissions, s = permKey b.resource p) ∨
              ∃ p ∈ b.permissions, s = permKey b.resource p) ∧
    buildOptimizedResourcePermissionsMap c7User =
      {"p1:type1:resource1", "p2:type1:resource1", "pN:type1:resource1"} := by
  constructor
  · intro user s
    simp only [buildOptimizedResourcePermissionsMap, List.mem_toFinset, List.mem_flatMap,
      bindingPermissions, List.mem_map, List.mem_append, rolePermissions,
      List.mem_filter, beq_iff_eq]
    constructor
    · rintro ⟨b, hb, p, (hp | hp), rfl⟩
      · obtain ⟨rid, hrid, r, ⟨hr, hrid2⟩, hpr⟩ := hp
        exact ⟨b, hb, Or.inl ⟨rid, hrid, r, hr, hrid2, p, hpr, rfl⟩⟩
      · exact ⟨b, hb, Or.inr ⟨p, hp, rfl⟩⟩
    · rintro ⟨b, hb, (⟨rid, hrid, r, hr, hrid2, p, hpr, rfl⟩ | ⟨p, hp, rfl⟩)⟩
      · exact ⟨b, hb, p, Or.inl ⟨rid, hrid, r, ⟨hr, hrid2⟩, hpr⟩, rfl⟩
      · exact ⟨b, hb, p, Or.inr hp, rfl⟩
  · decide

/-- Claim C8 counterexample: the error path `failResponseWithCode` of
utilities.go writes the JSON body with capitalized field names and sets no
header at all, so its response does not carry
`Content-Type: application/json`. -/
theorem failResponseWithCode_sets_no_headers :
    (failResponseWithCode 500 "some message").headers = [] ∧
    getHeader (failResponseWithCode 500 "some message").headers "Content-Type" = "" ∧
    (failResponseWithCode 500 "some message").body =
      "\x7b\"Error\":\"\",\"StatusCode\":500,\"Message\":\"some message\"\x7d" :=
  ⟨rfl, rfl, rfl⟩

/-- Claim C8 (amended): error responses produced through
`utils.FailResponseWithCode` carry `Content-Type: application/json` and the
§6 body shape, and those produced through the transport's
`responseWithError` carry a `Content-Length` equal to the actual body
length; the legacy `failResponseWithCode` of utilities.go sets neither
header itself. -/
theorem error_response_shape (statusCode : Nat) (err message : String)
    (resp : HttpResponse) :
    (FailResponseWithCode statusCode err message).headers =
        [("Content-Type", "application/json")] ∧
    (FailResponseWithCode statusCode err message).body =
        serializeRequestError statusCode message err ∧
    getHeader (responseWithError resp err statusCode).headers "Content-Length" =
        toString (serializeRequestError statusCode (errorMessageForStatus statusCode)
          err).length ∧
    (responseWithError resp err statusCode).body =
        .bytes (serializeRequestError statusCode (errorMessageForStatus statusCode) err) ∧
    (failResponseWithCode statusCode message).headers = [] :=
  ⟨rfl, rfl, getHeader_setHeader _ _ _, rfl, rfl⟩

/-- Claim C9: `setupRoutes` enumerates every path of the specification,
sorts the list in reverse lexicographic order, and only then registers the
routes by walking that sorted list (followed by the documentation and
catch-all fallbacks). -/
theorem setupRoutes_sorted_registration (oas : OpenAPISpec) (env : SetupEnv) :
    (sortedPaths oas).Perm (enumeratePaths oas) ∧
    List.Sorted (· ≥ ·) (sortedPaths oas) ∧
    setupRoutes oas env =
      (sortedPaths oas).filterMap
          (registerRoute env (documentationPermission oas env) (methodsMap oas)) ++
        (match lookupPath oas env.targetServiceOASPath with
         | none =>
           [{ path := convertPathVariablesToBrackets env.targetServiceOASPath
              isPrefix := false
              handler := .alwaysProxy
              methods := [] }]
         | some _ => []) ++
        [{ path := if env.standalone then env.pathPrefixStandalone ++ "/" else "/"
           isPrefix := true
           handler := .rbac
           methods := [] }] :=
  ⟨List.perm_insertionSort _ _, List.sorted_insertionSort _ _, rfl⟩

/-- Claim C10: a 2xx response whose body reads as zero bytes is returned
unchanged (headers preserved) with no error, regardless of its content
type, skipping the content-type check and the response-flow evaluation. -/
theorem roundTrip_empty_body_passthrough (resp : HttpResponse) (req : HttpRequest)
    (env : EnvVars) (ub : Except String User) (ev : RegoInput → Except String Json)
    (h2 : is2XX resp.statusCode = true) (hb : resp.body = .bytes "") :
    RoundTrip (.ok resp) req env ub ev = .ok resp := by
  simp [RoundTrip, h2, hb]

/-- Witness for C10 at a concrete 200 empty-body response without a
content-type header. -/
theorem roundTrip_empty_body_passthrough_witness :
    RoundTrip (.ok ⟨200, [("Some", "other-content")], .bytes ""⟩)
        ⟨"POST", "/some-api", [], "", [], ""⟩
        ⟨"userpropertiesheader", "usergroupsheader", "useridheader", "client-type"⟩
        (.ok ⟨"", [], [], []⟩) (fun _ => .ok Json.null) =
      .ok ⟨200, [("Some", "other-content")], .bytes ""⟩ :=
  roundTrip_empty_body_passthrough ⟨200, [("Some", "other-content")], .bytes ""⟩
    ⟨"POST", "/some-api", [], "", [], ""⟩
    ⟨"userpropertiesheader", "usergroupsheader", "useridheader", "client-type"⟩
    (.ok ⟨"", [], [], []⟩) (fun _ => .ok Json.null) (by decide) rfl

end Rond
